import Mathlib

/-!
Verification of the llmproxy_auth gateway against its specification.

The Go source is shallowly embedded: each Go function under proof is
translated into an executable Lean definition operating on the same data.
Go strings are Lean `String`s (byte slicing only ever happens at ASCII
boundaries in the code under proof), Go `int` is `Int`, Go `float64`
parameters that the code only compares against 0 are modelled as `Rat`
(the claims under proof never depend on floating-point rounding), and Go
maps used as constant tables are association lists.
-/

namespace LlmProxy

/-! ## Go standard-library string helpers used by the embedded code -/

/-- Go `strings.HasPrefix(s, pre)`. -/
def strStartsWith (s pre : String) : Bool :=
  pre.toList.isPrefixOf s.toList

/-- Go `strings.HasSuffix(s, suf)`. -/
def strEndsWith (s suf : String) : Bool :=
  suf.toList.isSuffixOf s.toList

/-- `needle` occurs contiguously in `hay`. -/
def listContainsSub : List Char → List Char → Bool
  | hay, needle =>
    needle.isPrefixOf hay ||
      match hay with
      | [] => false
      | _ :: rest => listContainsSub rest needle

/-- Go `strings.Contains(s, sub)`. -/
def strContainsSub (s sub : String) : Bool :=
  listContainsSub s.toList sub.toList

/-- Go `strings.TrimPrefix(s, pre)`: drops `pre` when it is a prefix,
otherwise returns `s` unchanged. -/
def strTrimPre (s pre : String) : String :=
  if strStartsWith s pre then String.mk (s.toList.drop pre.toList.length) else s

/-- Go `strings.Join(elems, sep)`. -/
def strJoin (elems : List String) (sep : String) : String :=
  String.intercalate sep elems

/-- First occurrence split: `splitFirst sep cs = some (before, after)` when
`sep` occurs in `cs`, splitting at its first occurrence. -/
def splitFirst (sep : Char) : List Char → Option (List Char × List Char)
  | [] => none
  | c :: cs =>
    if c = sep then some ([], cs)
    else (splitFirst sep cs).map (fun p => (c :: p.1, p.2))

/-- Character-list core of Go `strings.SplitN` for a one-character
separator and `n > 0`: at most `n` pieces, the last piece unsplit. -/
def splitNChars (sep : Char) : Nat → List Char → List (List Char)
  | 0, _ => []
  | 1, cs => [cs]
  | n + 2, cs =>
    match splitFirst sep cs with
    | none => [cs]
    | some (a, rest) => a :: splitNChars sep (n + 1) rest

/-- Go `strings.SplitN(s, sep, n)` for a one-character separator. -/
def strSplitN (s : String) (sep : Char) (n : Nat) : List String :=
  (splitNChars sep n s.toList).map (fun l => String.mk l)

/-- Value of a non-empty all-digit character list, `none` otherwise. -/
def digitsVal : List Char → Option Nat
  | [] => none
  | l => go 0 l
where
  go (acc : Nat) : List Char → Option Nat
    | [] => some acc
    | c :: cs => if c.isDigit then go (acc * 10 + (c.toNat - '0'.toNat)) cs else none

/-- Two's-complement wrap-around of an unbounded integer into the 64-bit
signed range, the behaviour of Go `int64` arithmetic on overflow. -/
def int64Wrap (x : Int) : Int :=
  (x + 9223372036854775808) % 18446744073709551616 - 9223372036854775808

/-- Whether a value fits Go's 64-bit `int`. -/
def int64InRange (n : Int) : Bool :=
  decide (-9223372036854775808 ≤ n ∧ n ≤ 9223372036854775807)

/-- Go `strconv.Atoi`: optional sign followed by at least one digit, and
an `ErrRange` error — surfaced here as `none` — when the value lies
outside the 64-bit `int` range. -/
def goAtoi (s : String) : Option Int :=
  let parsed : Option Int :=
    match s.toList with
    | [] => none
    | '+' :: rest => (digitsVal rest).map Int.ofNat
    | '-' :: rest => (digitsVal rest).map (fun n => -(n : Int))
    | l => (digitsVal l).map Int.ofNat
  match parsed with
  | some n => if int64InRange n then some n else none
  | none => none


/-! ## Go `time` formatting (`Format(time.RFC3339)`)

`time.Time` values under proof carry whole Unix seconds; the server
clock is modelled in UTC, so `Format(time.RFC3339)` renders
`yyyy-MM-ddTHH:mm:ssZ` with zero-padded decimal fields (Go prints an
offset instead of `Z` only for a non-UTC location, and widens the year
field only outside 0000-9999). -/

/-- The decimal digit character for `0 ≤ n ≤ 9`. -/
def digitChar (n : Int) : Char :=
  Char.ofNat (48 + n.toNat)

/-- The numeric value of a decimal digit character. -/
def dval (c : Char) : Int :=
  (c.toNat : Int) - 48

/-- Gregorian calendar date `(year, month, day)` for a day count since
1970-01-01, the civil-from-days algorithm Go's date computation
realises (divisions are Euclidean; every dividend under proof is
non-negative). -/
def civilFromDays (days : Int) : Int × Int × Int :=
  let z := days + 719468
  let era := z / 146097
  let doe := z - era * 146097
  let yoe := (doe - doe / 1460 + doe / 36524 - doe / 146096) / 365
  let doy := doe - (365 * yoe + yoe / 4 - yoe / 100)
  let mp := (5 * doy + 2) / 153
  let d := doy - (153 * mp + 2) / 5 + 1
  let m := mp + (if mp < 10 then 3 else -9)
  (yoe + era * 400 + (if m ≤ 2 then 1 else 0), m, d)

/-- `t.Format(time.RFC3339)` for a UTC time `t` given as Unix seconds:
four-digit year, two-digit zero-padded month, day, hour, minute and
second, with the literal separators and the `Z` suffix. -/
def rfc3339UTC (t : Int) : String :=
  let ymd := civilFromDays (t / 86400)
  let y := ymd.1
  let mo := ymd.2.1
  let da := ymd.2.2
  let secs := t % 86400
  let ho := secs / 3600
  let mi := secs / 60 % 60
  let se := secs % 60
  String.mk [digitChar (y / 1000), digitChar (y / 100 % 10),
    digitChar (y / 10 % 10), digitChar (y % 10), '-',
    digitChar (mo / 10), digitChar (mo % 10), '-',
    digitChar (da / 10), digitChar (da % 10), 'T',
    digitChar (ho / 10), digitChar (ho % 10), ':',
    digitChar (mi / 10), digitChar (mi % 10), ':',
    digitChar (se / 10), digitChar (se % 10), 'Z']

/-- Value of a two-digit decimal field. -/
def twoDigits (a b : Char) : Int :=
  dval a * 10 + dval b

/-- Recogniser for the RFC 3339 `date-time` production restricted to the
`Z` offset: `full-date "T" partial-time "Z"` with the ABNF field ranges
(month 01-12, day 01-31, hour 00-23, minute and second 00-59). -/
def isRFC3339 (s : String) : Bool :=
  match s.toList with
  | [y1, y2, y3, y4, sep1, m1, m2, sep2, d1, d2, sepT,
     h1, h2, sep3, mi1, mi2, sep4, s1, s2, sepZ] =>
    y1.isDigit && y2.isDigit && y3.isDigit && y4.isDigit &&
    (sep1 == '-') && (sep2 == '-') && (sepT == 'T') &&
    (sep3 == ':') && (sep4 == ':') && (sepZ == 'Z') &&
    m1.isDigit && m2.isDigit && d1.isDigit && d2.isDigit &&
    h1.isDigit && h2.isDigit && mi1.isDigit && mi2.isDigit &&
    s1.isDigit && s2.isDigit &&
    decide (1 ≤ twoDigits m1 m2) && decide (twoDigits m1 m2 ≤ 12) &&
    decide (1 ≤ twoDigits d1 d2) && decide (twoDigits d1 d2 ≤ 31) &&
    decide (twoDigits h1 h2 ≤ 23) &&
    decide (twoDigits mi1 mi2 ≤ 59) && decide (twoDigits s1 s2 ≤ 59)
  | _ => false

/-! ## JSON values

`encoding/json` output is modelled structurally: an object is its ordered
list of (field name, value) pairs.  A field whose Go type is a string map
or that the claims never inspect keeps its JSON value abstractly. -/

inductive JValue where
  | null
  | bool (b : Bool)
  | num (n : Int)
  | str (s : String)
  | arr (xs : List JValue)
  | obj (fields : List (String × JValue))

/-! ## internal/storage types (src/unnamed/part_004) -/

/-- `storage.PresignRequest`: `ExpiresIn time.Duration` is an `int64`
nanosecond count; the handler builds it as
`time.Duration(ttlSeconds) * time.Second`, whose product wraps around on
64-bit overflow. -/
structure PresignRequest where
  bucket : String
  key : String
  operation : String
  expiresInNanos : Int
  contentType : String
deriving DecidableEq, Repr

/-- `storage.PresignedURL` (src/unnamed/part_004 lines 158-166). -/
structure PresignedURL where
  url : String
  expiresIn : Int
  expiresAt : String
  operation : String
  bucket : String
  key : String
deriving DecidableEq, Repr

/-- The JSON object `encoding/json` produces for `storage.PresignedURL`:
field names come from the struct tags, in declaration order, none of them
`omitempty`. -/
def presignedURLJSON (p : PresignedURL) : List (String × JValue) :=
  [("url", .str p.url),
   ("expires_in", .num p.expiresIn),
   ("expires_at", .str p.expiresAt),
   ("operation", .str p.operation),
   ("bucket", .str p.bucket),
   ("key", .str p.key)]

/-- `storage.StorageError` (fields used by the handler). -/
structure StorageError where
  provider : String
  operation : String
  statusCode : Nat
  message : String
deriving DecidableEq, Repr

/-- `S3Provider.GeneratePresignedURL` (src/unnamed/part_003 lines 252-316),
abstracted over the signed `url` the AWS presign client returns and over
`time.Now()` (`nowUnixSeconds`).  The switch accepts exactly the four
presign operations and otherwise fails with a 400 `StorageError`; the
result copies the request's bucket, key and operation, renders
`ExpiresAt` as `time.Now().Add(req.ExpiresIn).Format(time.RFC3339)` and
sets `ExpiresIn` to `int(req.ExpiresIn.Seconds())` — a truncating
nanoseconds-to-seconds conversion, exact for the durations under proof
(`Seconds()`'s float64 rounding shows only beyond 2^53 ns). -/
def s3GeneratePresignedURL (req : PresignRequest) (url : String)
    (nowUnixSeconds : Int) : Except StorageError PresignedURL :=
  if req.operation = "GetObject" ∨ req.operation = "PutObject" ∨
      req.operation = "DeleteObject" ∨ req.operation = "HeadObject" then
    .ok { url := url
          expiresIn := req.expiresInNanos.tdiv 1000000000
          expiresAt := rfc3339UTC (nowUnixSeconds + req.expiresInNanos / 1000000000)
          operation := req.operation
          bucket := req.bucket
          key := req.key }
  else
    .error { provider := "s3", operation := "GeneratePresignedURL",
             statusCode := 400,
             message := "unsupported presign operation: " ++ req.operation }

/-! ## internal/handlers/storage.go -/

/-- `handlers.StorageAccessControl`. -/
structure StorageAccessControl where
  allowedBuckets : List String
  deniedPrefixes : List String
  allowedProviders : List String
deriving DecidableEq, Repr

/-- `handlers.NewDefaultAccessControl` (storage.go lines 300-306). -/
def newDefaultAccessControl : StorageAccessControl :=
  { allowedBuckets := []
    deniedPrefixes := ["/secret/", "/private/", "/."]
    allowedProviders := ["s3", "azure", "gcs"] }

/-- `StorageAccessControl.CheckAccess` (storage.go lines 309-332).  The
`operation` argument is accepted but never read by the Go code. -/
def checkAccess (ac : StorageAccessControl) (bucket key operation : String) : Bool :=
  if 0 < ac.allowedBuckets.length && !(ac.allowedBuckets.contains bucket) then
    false
  else if ac.deniedPrefixes.any
      (fun denied => strStartsWith ("/" ++ key) denied || strStartsWith key denied) then
    false
  else
    true

/-- What the handler does with a request: an error response written before
any storage-provider call, or a dispatch into the provider with the exact
arguments the Go code passes. -/
inductive StorageDispatch where
  | getOp (bucket key : String)
  | putOp (bucket key contentType : String)
  | deleteOp (bucket key : String)
  | listOp (bucket pre delimiter : String) (maxKeys : Int) (continuationToken : String)
  | headOp (bucket key : String)
  | presignOp (req : PresignRequest)
deriving DecidableEq, Repr

inductive HandlerResult where
  | error (status : Nat) (message : String)
  | dispatch (d : StorageDispatch)
deriving DecidableEq, Repr

/-- The inbound HTTP request as the storage handler reads it: the URL path,
the query lookup (`r.URL.Query().Get`, returning `""` for an absent key)
and the `Content-Type` header (`""` when absent). -/
structure StorageHTTPRequest where
  path : String
  query : String → String
  contentType : String

/-- The `max_keys` default logic of the `list` branch (storage.go 167-172):
1000 unless a non-empty value parses. -/
def listMaxKeys (maxKeysStr : String) : Int :=
  if maxKeysStr ≠ "" then
    match goAtoi maxKeysStr with
    | some parsed => parsed
    | none => 1000
  else 1000

/-- The handler's operation switch (storage.go lines 81-267), reached after
the provider lookup and access check; `bucket` and `key` are already
parsed.  Each non-`list` branch insists on a non-empty key with a 400. -/
def dispatchOp (req : StorageHTTPRequest) (operation bucket key : String) : HandlerResult :=
  if operation = "get" then
    if key = "" then .error 400 "Object key is required for get operation"
    else .dispatch (.getOp bucket key)
  else if operation = "put" then
    if key = "" then .error 400 "Object key is required for put operation"
    else
      .dispatch (.putOp bucket key
        (if req.contentType = "" then "application/octet-stream" else req.contentType))
  else if operation = "delete" then
    if key = "" then .error 400 "Object key is required for delete operation"
    else .dispatch (.deleteOp bucket key)
  else if operation = "list" then
    .dispatch (.listOp bucket (req.query "prefix") (req.query "delimiter")
      (listMaxKeys (req.query "max_keys")) (req.query "continuation_token"))
  else if operation = "head" then
    if key = "" then .error 400 "Object key is required for head operation"
    else .dispatch (.headOp bucket key)
  else if operation = "presign" then
    if key = "" then .error 400 "Object key is required for presign operation"
    else
      let ttlStr := req.query "ttl"
      let ttlStr := if ttlStr = "" then "3600" else ttlStr
      match goAtoi ttlStr with
      | none => .error 400 "Invalid TTL value"
      | some ttlSeconds =>
        let presignOp :=
          if req.query "operation" ≠ "" then req.query "operation" else "GetObject"
        .dispatch (.presignOp
          { bucket := bucket, key := key, operation := presignOp,
            expiresInNanos := int64Wrap (ttlSeconds * 1000000000), contentType := "" })
  else .error 400 ("Unknown storage operation: " ++ operation)

/-- The body of `StorageHandler.Handle` once the path components are in
hand: provider lookup (404), bucket/key assembly, access check (403), then
the operation switch. -/
def handleParsed (providers : List String) (ac : StorageAccessControl)
    (req : StorageHTTPRequest) (providerName operation bucket : String)
    (rest : List String) : HandlerResult :=
  if !(providers.contains providerName) then
    .error 404 ("Storage provider \"" ++ providerName ++ "\" not found")
  else
    let key := strJoin rest "/"
    if !(checkAccess ac bucket key operation) then
      .error 403 "Access denied"
    else
      dispatchOp req operation bucket key

/-- `StorageHandler.Handle` (storage.go lines 39-268): trim the leading
slash-dash marker, `SplitN` the remainder into at most five pieces, reject
paths with fewer than four, then hand over to `handleParsed`.  `providers`
is the set of registered storage provider names. -/
def storageHandle (providers : List String) (ac : StorageAccessControl)
    (req : StorageHTTPRequest) : HandlerResult :=
  match strSplitN (strTrimPre req.path "/-") '/' 5 with
  | p0 :: _p1 :: p2 :: p3 :: rest => handleParsed providers ac req p0 p2 p3 rest
  | _ => .error 400 "Invalid storage path format"

/-- Success path of the `presign` branch (storage.go lines 260-263): HTTP
200 with the provider's `PresignedURL` JSON-encoded as the body. -/
def presignSuccessResponse (resp : PresignedURL) : Nat × List (String × JValue) :=
  (200, presignedURLJSON resp)

def emptyQuery : String → String := fun _ => ""



/-! ## internal/router/model_router.go -/

/-- Go map lookup on an association list (a Go map literal with distinct
keys; lookup order is irrelevant for distinct keys). -/
def goMapLookup (m : List (String × String)) (k : String) : Option String :=
  match m with
  | [] => none
  | (k', v) :: rest => if k = k' then some v else goMapLookup rest k

/-- `ModelRouter.matchModelPattern` (model_router.go lines 64-133):
suffix rules first, then the prefix tables, in source order. -/
def matchModelPattern (model : String) : String :=
  if strEndsWith model "-azure" || strEndsWith model "-deployment" then "azure"
  else if strEndsWith model "-anthropic" then "anthropic"
  else if strStartsWith model "ibm/" then "ibm"
  else if strStartsWith model "cohere." && !(strContainsSub model "command-text") then
    "oracle"
  else if ["claude-", "amazon.titan-", "ai21.j2-", "meta.llama", "mistral.",
      "cohere.command-text"].any (fun pre => strStartsWith model pre) then
    "bedrock"
  else if ["gpt-3.5-", "gpt-4", "text-davinci-", "text-curie-", "text-babbage-",
      "text-ada-"].any (fun pre => strStartsWith model pre) then
    "openai"
  else if ["gemini-", "text-bison", "chat-bison", "codechat-bison"].any
      (fun pre => strStartsWith model pre) then
    "vertex"
  else ""

/-- `ModelRouter` state: the model-to-provider exact map (the provider
registry does not influence `GetProviderForModel`). -/
structure ModelRouter where
  modelMap : List (String × String)

/-- `ModelRouter.GetProviderForModel` (model_router.go lines 154-162):
exact map entry wins, otherwise pattern matching. -/
def getProviderForModelName (r : ModelRouter) (model : String) : String :=
  match goMapLookup r.modelMap model with
  | some providerName => providerName
  | none => matchModelPattern model

/-! ## internal/providers (bedrock model-ID table, openai.go lines 422-461) -/

/-- `BedrockModelIDMap`: friendly name to full Bedrock model ID. -/
def bedrockModelIDMap : List (String × String) :=
  [("claude-3-opus", "anthropic.claude-3-opus-20240229-v1:0"),
   ("claude-3-opus-20240229", "anthropic.claude-3-opus-20240229-v1:0"),
   ("claude-3-sonnet", "anthropic.claude-3-sonnet-20240229-v1:0"),
   ("claude-3-sonnet-20240229", "anthropic.claude-3-sonnet-20240229-v1:0"),
   ("claude-3-haiku", "anthropic.claude-3-haiku-20240307-v1:0"),
   ("claude-3-haiku-20240307", "anthropic.claude-3-haiku-20240307-v1:0"),
   ("claude-3-5-sonnet", "anthropic.claude-3-5-sonnet-20240620-v1:0"),
   ("claude-3-5-sonnet-20240620", "anthropic.claude-3-5-sonnet-20240620-v1:0"),
   ("amazon-titan-text-express", "amazon.titan-text-express-v1"),
   ("amazon-titan-text-lite", "amazon.titan-text-lite-v1"),
   ("amazon-titan-embed-text", "amazon.titan-embed-text-v1"),
   ("llama2-13b", "meta.llama2-13b-chat-v1"),
   ("llama2-70b", "meta.llama2-70b-chat-v1"),
   ("mistral-7b", "mistral.mistral-7b-instruct-v0:2"),
   ("mistral-8x7b", "mistral.mixtral-8x7b-instruct-v0:1")]

/-- `GetBedrockModelID` (openai.go lines 449-461).  The pass-through
branch compares the one-byte slice `name[0:1]` — the first character as a
string — against the full provider prefixes, exactly as the Go code
writes it. -/
def getBedrockModelID (name : String) : Option String :=
  if 0 < name.length ∧
      (String.mk (name.toList.take 1) = "anthropic." ∨
       String.mk (name.toList.take 1) = "amazon." ∨
       String.mk (name.toList.take 1) = "meta." ∨
       String.mk (name.toList.take 1) = "mistral.") then
    some name
  else
    goMapLookup bedrockModelIDMap name


/-! ## internal/translator: OpenAI-dialect types

`translator.ChatCompletionRequest` is declared in a file not under proof;
its fields are reconstructed from every use site in the two Bedrock
translators.  Go's `interface{}`-typed `content` (string, part array or
nil) becomes a three-case variant, and a content part (a JSON object) is
represented by the shapes the converters test for. -/

inductive OpenAIPart where
  /-- a part whose `type` is `"text"` carrying a string `text` field -/
  | text (s : String)
  /-- a part whose `type` is `"image_url"` carrying `image_url.url` -/
  | imageURL (url : String)
  /-- any other part (unknown `type`, or expected fields of wrong shape) -/
  | other
deriving DecidableEq, Repr

inductive OpenAIContent where
  | str (s : String)
  | parts (ps : List OpenAIPart)
  /-- the nil interface: Go's fallback branch formats it as `"<nil>"` -/
  | null
deriving DecidableEq, Repr

/-- `translator.FunctionCall`.  Go stores `Arguments` as the
`json.Marshal` image of the tool input; the marshalled JSON value is kept
directly (serialisation is injective on it and no claim inspects the raw
bytes). -/
structure FunctionCall where
  name : String
  arguments : JValue

structure ToolCall where
  id : String
  type : String
  function : FunctionCall

structure ChatMessage where
  role : String
  content : OpenAIContent
  toolCalls : List ToolCall

structure ToolFunctionDef where
  name : String
  description : String
  parameters : JValue

structure OpenAITool where
  type : String
  function : ToolFunctionDef

/-- `tool_choice` is `interface{}` in Go: a string, a
`{type: function, function: {name}}` object, something else, or absent. -/
inductive OpenAIToolChoice where
  | str (s : String)
  | fn (name : String)
  | malformed
deriving DecidableEq, Repr

structure ChatCompletionRequest where
  model : String
  messages : List ChatMessage
  maxTokens : Int
  temperature : Rat
  topP : Rat
  stop : List String
  stream : Bool
  tools : List OpenAITool
  functions : List ToolFunctionDef
  toolChoice : Option OpenAIToolChoice

structure UsageInfo where
  promptTokens : Int
  completionTokens : Int
  totalTokens : Int
deriving DecidableEq, Repr

structure ChatCompletionChoice where
  index : Nat
  message : ChatMessage
  finishReason : String

structure ChatCompletionResponse where
  id : String
  object : String
  created : Int
  model : String
  choices : List ChatCompletionChoice
  usage : Option UsageInfo

/-! ## internal/translator/bedrock_converse.go: Converse types -/

structure ImageSource where
  bytes : String
deriving DecidableEq, Repr

structure ImageBlock where
  format : String
  source : ImageSource
deriving DecidableEq, Repr

structure ToolUseBlock where
  toolUseId : String
  name : String
  input : JValue

/-- `ContentBlock` restricted to the fields the translators read or write
(`document`, `toolResult` are never produced nor consumed by them). -/
structure ContentBlock where
  text : Option String
  image : Option ImageBlock
  toolUse : Option ToolUseBlock

/-- A pure text block, the shape `convertToContentBlocks` produces for
string content. -/
def ContentBlock.mkText (s : String) : ContentBlock :=
  { text := some s, image := none, toolUse := none }

structure SystemContentBlock where
  text : String
deriving DecidableEq, Repr

structure ConverseMessage where
  role : String
  content : List ContentBlock

structure InferenceConfig where
  maxTokens : Option Int
  temperature : Option Rat
  topP : Option Rat
  stopSequences : List String
deriving DecidableEq, Repr

structure ToolSpec where
  name : String
  description : String
  inputSchema : JValue

inductive ConverseToolChoice where
  | auto
  | any
  | tool (name : String)
deriving DecidableEq, Repr

structure ToolConfig where
  tools : List ToolSpec
  toolChoice : Option ConverseToolChoice

/-- The translated Converse request together with the provider-request
envelope data `TranslateOpenAIToConverseAPI` builds around it. -/
structure ConverseTranslation where
  modelID : String
  messages : List ConverseMessage
  system : List SystemContentBlock
  inferenceConfig : InferenceConfig
  toolConfig : Option ToolConfig
  method : String
  path : String

structure ConverseUsage where
  inputTokens : Int
  outputTokens : Int
  totalTokens : Int
deriving DecidableEq, Repr

/-- `ConverseResponse`: `Output.Message` is a nullable pointer. -/
structure ConverseResponse where
  output : Option ConverseMessage
  stopReason : String
  usage : ConverseUsage

/-! ## internal/translator: the Bedrock translators -/

/-- `extractTextContent` (openai_to_bedrock.go lines 201-218): string
content as-is; for a part array, the `text` fields joined by newlines;
otherwise `fmt.Sprintf`, which renders the nil interface as `<nil>`. -/
def extractTextContent (content : OpenAIContent) : String :=
  match content with
  | .str s => s
  | .parts ps =>
    strJoin (ps.filterMap (fun p => match p with
      | .text t => some t
      | _ => none)) "\n"
  | .null => "<nil>"

/-- `extractImageFormat` (bedrock_converse.go lines 380-392). -/
def extractImageFormat (pre : String) : String :=
  if strContainsSub pre "image/png" then "png"
  else if strContainsSub pre "image/jpeg" || strContainsSub pre "image/jpg" then "jpeg"
  else if strContainsSub pre "image/gif" then "gif"
  else if strContainsSub pre "image/webp" then "webp"
  else "jpeg"

/-- `convertContentPartToBlock` (bedrock_converse.go lines 340-377). -/
def convertContentPartToBlock (part : OpenAIPart) : Option ContentBlock :=
  match part with
  | .text t => some (ContentBlock.mkText t)
  | .imageURL url =>
    if strStartsWith url "data:image/" then
      match strSplitN url ',' 2 with
      | [p0, p1] =>
        some { text := none,
               image := some { format := extractImageFormat p0, source := { bytes := p1 } },
               toolUse := none }
      | _ => none
    else none
  | .other => none

/-- `convertToContentBlocks` (bedrock_converse.go lines 307-337). -/
def convertToContentBlocks (content : OpenAIContent) : List ContentBlock :=
  match content with
  | .str s => [ContentBlock.mkText s]
  | .parts ps => ps.filterMap convertContentPartToBlock
  | .null => [ContentBlock.mkText "<nil>"]

/-- `convertToolChoice` (bedrock_converse.go lines 466-489): `none`
yields nil, anything unrecognised falls through to `auto`. -/
def convertToolChoice (tc : OpenAIToolChoice) : Option ConverseToolChoice :=
  match tc with
  | .str "auto" => some .auto
  | .str "required" => some .any
  | .str "any" => some .any
  | .str "none" => none
  | .str _ => some .auto
  | .fn name => some (.tool name)
  | .malformed => some .auto

/-- `convertToolsToConverseFormat` (bedrock_converse.go lines 418-463). -/
def convertToolsToConverseFormat (req : ChatCompletionRequest) : Option ToolConfig :=
  let fromTools := (req.tools.filter (fun t => t.type = "function")).map
    (fun t => ToolSpec.mk t.function.name t.function.description t.function.parameters)
  let fromFunctions := req.functions.map
    (fun f => ToolSpec.mk f.name f.description f.parameters)
  let converseTools := fromTools ++ fromFunctions
  if converseTools.isEmpty then none
  else
    some { tools := converseTools
           toolChoice := match req.toolChoice with
             | some tc => convertToolChoice tc
             | none => none }

/-- The message loop of `TranslateOpenAIToConverseAPI` (bedrock_converse.go
lines 160-187): system messages collapse to system blocks in order,
function/tool messages are skipped, and a message whose content converts
to no blocks is dropped. -/
def convertConverseMessages : List ChatMessage → List ConverseMessage × List SystemContentBlock
  | [] => ([], [])
  | msg :: rest =>
    let (ms, sys) := convertConverseMessages rest
    if msg.role = "system" then
      (ms, ⟨extractTextContent msg.content⟩ :: sys)
    else if msg.role = "function" ∨ msg.role = "tool" then
      (ms, sys)
    else
      let contentBlocks := convertToContentBlocks msg.content
      if contentBlocks.isEmpty then (ms, sys)
      else (⟨msg.role, contentBlocks⟩ :: ms, sys)

def bedrockNotSupportedMsg (model : String) : String :=
  "model \"" ++ model ++ "\" not supported on Bedrock"

/-- `TranslateOpenAIToConverseAPI` (bedrock_converse.go lines 152-241). -/
def translateOpenAIToConverseAPI (req : ChatCompletionRequest) :
    Except String ConverseTranslation :=
  match getBedrockModelID req.model with
  | none => .error (bedrockNotSupportedMsg req.model)
  | some bedrockModelID =>
    let (converseMessages, systemBlocks) := convertConverseMessages req.messages
    let inferenceConfig : InferenceConfig :=
      { maxTokens := if 0 < req.maxTokens then some req.maxTokens else none
        temperature := if 0 < req.temperature then some req.temperature else none
        topP := if 0 < req.topP then some req.topP else none
        stopSequences := req.stop }
    let toolConfig :=
      if !req.tools.isEmpty || !req.functions.isEmpty then convertToolsToConverseFormat req
      else none
    .ok { modelID := bedrockModelID
          messages := converseMessages
          system := systemBlocks
          inferenceConfig := inferenceConfig
          toolConfig := toolConfig
          method := "POST"
          path := if req.stream then "/model/" ++ bedrockModelID ++ "/converse-stream"
                  else "/model/" ++ bedrockModelID ++ "/converse" }

/-- `mapConverseStopReason` (bedrock_converse.go lines 395-410). -/
def mapConverseStopReason (converseReason : String) : String :=
  match converseReason with
  | "end_turn" => "stop"
  | "max_tokens" => "length"
  | "stop_sequence" => "stop"
  | "tool_use" => "tool_calls"
  | "content_filtered" => "content_filter"
  | _ => "stop"

/-- The content/tool-call sweep of `TranslateConverseToOpenAI`
(bedrock_converse.go lines 249-267): text blocks concatenate in order,
each `toolUse` block becomes a `ToolCall` carrying its `toolUseId`, name
and marshalled input. -/
def collectConverseBlocks : List ContentBlock → String × List ToolCall
  | [] => ("", [])
  | block :: rest =>
    let (content, toolCalls) := collectConverseBlocks rest
    ((match block.text with | some t => t | none => "") ++ content,
     (match block.toolUse with
      | some tu => [ToolCall.mk tu.toolUseId "function" ⟨tu.name, tu.input⟩]
      | none => []) ++ toolCalls)

/-- `TranslateConverseToOpenAI` (bedrock_converse.go lines 244-304).
`currentTimestampUnix` returns 0 in the source; the handler overwrites it
later. -/
def translateConverseToOpenAI (converseResp : ConverseResponse)
    (openaiModel requestID : String) : ChatCompletionResponse :=
  let collected :=
    match converseResp.output with
    | some msg => collectConverseBlocks msg.content
    | none => ("", [])
  let content := collected.1
  let toolCalls := collected.2
  let message : ChatMessage :=
    { role := "assistant"
      content := if content ≠ "" then .str content else .null
      toolCalls := toolCalls }
  { id := requestID
    object := "chat.completion"
    created := 0
    model := openaiModel
    choices := [{ index := 0, message := message,
                  finishReason := mapConverseStopReason converseResp.stopReason }]
    usage := some { promptTokens := converseResp.usage.inputTokens
                    completionTokens := converseResp.usage.outputTokens
                    totalTokens := converseResp.usage.totalTokens } }

/-! ## internal/translator/openai_to_bedrock.go (legacy invoke API) -/

inductive BedrockContentBlock where
  /-- `{Type: text, Text}` -/
  | text (s : String)
  /-- `{Type: image, Source: {Type: base64, MediaType, Data}}` -/
  | image (mediaType data : String)
deriving DecidableEq, Repr

/-- `BedrockMessage.Content` is `interface{}`: a string, a block slice, or
left nil when a part array converts to no blocks. -/
inductive BedrockContent where
  | str (s : String)
  | blocks (bs : List BedrockContentBlock)
  | null
deriving DecidableEq, Repr

structure BedrockMessage where
  role : String
  content : BedrockContent
deriving DecidableEq, Repr

structure BedrockRequest where
  anthropicVersion : String
  messages : List BedrockMessage
  maxTokens : Int
  temperature : Rat
  topP : Rat
  stopSequences : List String
  system : String
deriving DecidableEq, Repr

structure BedrockTranslation where
  request : BedrockRequest
  modelID : String
  method : String
  path : String
deriving DecidableEq, Repr

/-- `extractMediaType` (openai_to_bedrock.go lines 262-270): the part of
the data-URL prefix before the first semicolon, with `data:` stripped. -/
def extractMediaType (pre : String) : String :=
  match strSplitN pre ';' 2 with
  | p0 :: _ => strTrimPre p0 "data:"
  | [] => "image/jpeg"

/-- `convertContentPart` (openai_to_bedrock.go lines 221-259). -/
def convertContentPart (part : OpenAIPart) : Option BedrockContentBlock :=
  match part with
  | .text t => some (.text t)
  | .imageURL url =>
    if strStartsWith url "data:image/" then
      match strSplitN url ',' 2 with
      | [p0, p1] => some (.image (extractMediaType p0) p1)
      | _ => none
    else none
  | .other => none

/-- The message loop of `TranslateOpenAIToBedrock` (openai_to_bedrock.go
lines 77-117): each system message overwrites the system prompt (the last
one wins), assistant messages carrying tool calls are skipped, and a part
array converting to no blocks leaves the message content nil. -/
def convertBedrockMessagesAux : List ChatMessage → String → List BedrockMessage × String
  | [], systemPrompt => ([], systemPrompt)
  | msg :: rest, systemPrompt =>
    if msg.role = "system" then
      convertBedrockMessagesAux rest (extractTextContent msg.content)
    else if msg.role = "assistant" ∧ ¬ msg.toolCalls.isEmpty then
      convertBedrockMessagesAux rest systemPrompt
    else
      let (ms, sysOut) := convertBedrockMessagesAux rest systemPrompt
      let content : BedrockContent :=
        match msg.content with
        | .str s => .str s
        | .parts ps =>
          let blocks := ps.filterMap convertContentPart
          if blocks.isEmpty then .null else .blocks blocks
        | .null => .str "<nil>"
      (⟨msg.role, content⟩ :: ms, sysOut)

def convertBedrockMessages (msgs : List ChatMessage) : List BedrockMessage × String :=
  convertBedrockMessagesAux msgs ""

/-- `TranslateOpenAIToBedrock` (openai_to_bedrock.go lines 66-161),
including the post-loop defaults: `MaxTokens` 4096 and `Temperature` 1
when the request carries 0. -/
def translateOpenAIToBedrock (req : ChatCompletionRequest) :
    Except String BedrockTranslation :=
  match getBedrockModelID req.model with
  | none => .error (bedrockNotSupportedMsg req.model)
  | some bedrockModelID =>
    let (bedrockMessages, systemPrompt) := convertBedrockMessages req.messages
    let bedrockReq : BedrockRequest :=
      { anthropicVersion := "bedrock-2023-05-31"
        messages := bedrockMessages
        maxTokens := req.maxTokens
        temperature := req.temperature
        topP := req.topP
        stopSequences := req.stop
        system := systemPrompt }
    let bedrockReq :=
      { bedrockReq with maxTokens := if bedrockReq.maxTokens = 0 then 4096 else bedrockReq.maxTokens }
    let bedrockReq :=
      { bedrockReq with temperature := if bedrockReq.temperature = 0 then 1 else bedrockReq.temperature }
    .ok { request := bedrockReq
          modelID := bedrockModelID
          method := "POST"
          path := if req.stream then "/model/" ++ bedrockModelID ++ "/invoke-with-response-stream"
                  else "/model/" ++ bedrockModelID ++ "/invoke" }

/-! ## Router fallback (src/unnamed/part_005)

The router's `Config` type lives outside the files under proof; it enters
as an abstract environment exposing exactly the accessors
`Router.RouteRequest` and `Router.tryFallbackProviders` call.  Model info
is an opaque record. -/

structure ProviderModelInfo where
  modelID : String
deriving DecidableEq, Repr

structure RouterConfig where
  /-- `Config.IsProviderEnabled` -/
  providerEnabled : String → Bool
  /-- `Config.GetProviderModelInfo`: `some` on success, `none` for error -/
  providerModelInfo : String → String → Option ProviderModelInfo
  /-- `Config.GetDefaultProvider` (empty string when the model is unmapped) -/
  defaultProvider : String → String
  /-- `Config.GetFallbackProviders` -/
  fallbackProviders : List String
  /-- `Config.Routing.Fallback.Enabled` -/
  fallbackEnabled : Bool
  /-- `Config.Routing.Fallback.MaxAttempts` (Go `int`) -/
  maxAttempts : Int
  /-- `Config.Features.AutoFallback` -/
  autoFallback : Bool

/-- The router with its provider registry, kept as the set of registered
names (the registry value that comes back with a route is the name). -/
structure Router where
  config : RouterConfig
  registered : String → Bool

/-- `Router.getProviderForModel` (part_005 lines 66-86). -/
def routerGetProviderForModel (r : Router) (modelName providerName : String) :
    Except String (String × ProviderModelInfo) :=
  if !(r.config.providerEnabled providerName) then
    .error ("provider \"" ++ providerName ++ "\" is disabled")
  else if !(r.registered providerName) then
    .error ("provider \"" ++ providerName ++ "\" not registered")
  else
    match r.config.providerModelInfo modelName providerName with
    | none => .error ("model \"" ++ modelName ++ "\" not available on provider \"" ++
        providerName ++ "\"")
    | some modelInfo => .ok (providerName, modelInfo)

def fallbackExhaustedMsg (modelName : String) : String :=
  "all fallback providers exhausted for model \"" ++ modelName ++ "\""

/-- The loop of `Router.tryFallbackProviders` (part_005 lines 88-116):
walk the fallback list in order, skip the failed provider without
counting an attempt, stop once `attempts` reaches `maxAttempts` (the
`break` lands on the same exhausted error), return the first provider
that resolves. -/
def tryFallbackAux (r : Router) (modelName excludeProvider : String)
    (maxAttempts : Int) : List String → Int → Except String (String × ProviderModelInfo)
  | [], _ => .error (fallbackExhaustedMsg modelName)
  | providerName :: rest, attempts =>
    if providerName = excludeProvider then
      tryFallbackAux r modelName excludeProvider maxAttempts rest attempts
    else if maxAttempts ≤ attempts then
      .error (fallbackExhaustedMsg modelName)
    else
      match routerGetProviderForModel r modelName providerName with
      | .ok res => .ok res
      | .error _ => tryFallbackAux r modelName excludeProvider maxAttempts rest (attempts + 1)

/-- `Router.tryFallbackProviders` (part_005 lines 88-116). -/
def tryFallbackProviders (r : Router) (modelName excludeProvider : String) :
    Except String (String × ProviderModelInfo) :=
  tryFallbackAux r modelName excludeProvider r.config.maxAttempts
    r.config.fallbackProviders 0

/-- `Router.RouteRequest` (part_005 lines 34-63). -/
def routeRequest (r : Router) (modelName preferredProvider : String) :
    Except String (String × ProviderModelInfo) :=
  let afterPreferred : Except String (String × ProviderModelInfo) :=
    let defaultProviderName := r.config.defaultProvider modelName
    if defaultProviderName = "" then
      .error ("no provider found for model \"" ++ modelName ++ "\"")
    else
      match routerGetProviderForModel r modelName defaultProviderName with
      | .ok res => .ok res
      | .error e =>
        if !r.config.autoFallback || !r.config.fallbackEnabled then
          .error ("provider \"" ++ defaultProviderName ++ "\" failed for model \"" ++
            modelName ++ "\": " ++ e)
        else
          tryFallbackProviders r modelName defaultProviderName
  if preferredProvider ≠ "" then
    match routerGetProviderForModel r modelName preferredProvider with
    | .ok res => .ok res
    | .error _ => afterPreferred
  else
    afterPreferred

/-! ## Shared lemmas -/

theorem toList_slash_append (s : String) : ("/" ++ s).toList = '/' :: s.toList := rfl

theorem strJoin_nil (sep : String) : strJoin [] sep = "" := rfl

theorem strJoin_singleton (x sep : String) : strJoin [x] sep = x := rfl

theorem storageHandle_parsed (providers : List String) (ac : StorageAccessControl)
    (req : StorageHTTPRequest) (p0 p1 p2 p3 : String) (rest : List String)
    (hparse : strSplitN (strTrimPre req.path "/-") '/' 5 = p0 :: p1 :: p2 :: p3 :: rest) :
    storageHandle providers ac req = handleParsed providers ac req p0 p2 p3 rest := by
  unfold storageHandle
  rw [hparse]

theorem handleParsed_allowed (providers : List String) (ac : StorageAccessControl)
    (req : StorageHTTPRequest) (providerName operation bucket : String) (rest : List String)
    (hprov : providers.contains providerName = true)
    (hacc : checkAccess ac bucket (strJoin rest "/") operation = true) :
    handleParsed providers ac req providerName operation bucket rest =
      dispatchOp req operation bucket (strJoin rest "/") := by
  unfold handleParsed
  simp only [hprov, hacc, Bool.not_true, Bool.not_false, if_neg, if_pos]
  rfl

theorem handleParsed_denied (providers : List String) (ac : StorageAccessControl)
    (req : StorageHTTPRequest) (providerName operation bucket : String) (rest : List String)
    (hprov : providers.contains providerName = true)
    (hacc : checkAccess ac bucket (strJoin rest "/") operation = false) :
    handleParsed providers ac req providerName operation bucket rest =
      .error 403 "Access denied" := by
  unfold handleParsed
  simp only [hprov, hacc, Bool.not_true, Bool.not_false, if_neg, if_pos]
  rfl

/-! ## RFC 3339 well-formedness of the embedded formatter -/

theorem digitChar_isDigit (v : Int) (h0 : 0 ≤ v) (h9 : v ≤ 9) :
    (digitChar v).isDigit = true := by
  interval_cases v <;> decide

theorem dval_digitChar (v : Int) (h0 : 0 ≤ v) (h9 : v ≤ 9) :
    dval (digitChar v) = v := by
  interval_cases v <;> decide

theorem twoDigits_digitChar (n : Int) (h0 : 0 ≤ n) (h99 : n ≤ 99) :
    twoDigits (digitChar (n / 10)) (digitChar (n % 10)) = n := by
  unfold twoDigits
  rw [dval_digitChar _ (by omega) (by omega), dval_digitChar _ (by omega) (by omega)]
  omega

theorem civilFromDays_bounds (z : Int) (h0 : 0 ≤ z) (h1 : z ≤ 2932896) :
    1000 ≤ (civilFromDays z).1 ∧ (civilFromDays z).1 ≤ 9999 ∧
    1 ≤ (civilFromDays z).2.1 ∧ (civilFromDays z).2.1 ≤ 12 ∧
    1 ≤ (civilFromDays z).2.2 ∧ (civilFromDays z).2.2 ≤ 31 := by
  simp only [civilFromDays]
  split_ifs <;> omega

/-- Every timestamp the embedded Go formatter renders inside RFC 3339's
year range (1970 through 9999, the non-negative Unix seconds below
10000-01-01) matches the RFC 3339 `date-time` grammar. -/
theorem rfc3339UTC_wellFormed (t : Int) (h0 : 0 ≤ t) (hlt : t < 253402300800) :
    isRFC3339 (rfc3339UTC t) = true := by
  have hdays0 : 0 ≤ t / 86400 := by omega
  have hdays1 : t / 86400 ≤ 2932896 := by omega
  obtain ⟨hy0, hy1, hm0, hm1, hd0, hd1⟩ := civilFromDays_bounds _ hdays0 hdays1
  have hsec0 : 0 ≤ t % 86400 := by omega
  have hsec1 : t % 86400 < 86400 := by omega
  unfold rfc3339UTC isRFC3339
  dsimp only [String.toList]
  simp only [Bool.and_eq_true, beq_iff_eq, decide_eq_true_eq]
  repeat' apply And.intro
  all_goals
    first
    | trivial
    | (apply digitChar_isDigit <;> omega)
    | (rw [twoDigits_digitChar _ (by omega) (by omega)]; omega)

/-! ## Claim C1: presign response fields -/

/-- C1 counterexample: a concrete presign request that succeeds (spec
scenario 3's path, ttl 3600, clock at 2025-01-15T12:00:00Z), whose JSON
response body has no field named `ttl` — the integer TTL field is
called `expires_in`. -/
theorem c1_no_ttl_field :
    s3GeneratePresignedURL
        { bucket := "rag-docs", key := "policies/p.pdf", operation := "GetObject",
          expiresInNanos := 3600000000000, contentType := "" }
        "https://rag-docs.s3.amazonaws.com/policies/p.pdf" 1736942400 =
      .ok { url := "https://rag-docs.s3.amazonaws.com/policies/p.pdf",
            expiresIn := 3600, expiresAt := "2025-01-15T13:00:00Z",
            operation := "GetObject", bucket := "rag-docs", key := "policies/p.pdf" }
    ∧ ¬ ("ttl" ∈ (presignedURLJSON
          { url := "https://rag-docs.s3.amazonaws.com/policies/p.pdf",
            expiresIn := 3600, expiresAt := "2025-01-15T13:00:00Z",
            operation := "GetObject", bucket := "rag-docs",
            key := "policies/p.pdf" }).map Prod.fst) := by
  constructor
  · rfl
  · decide

/-- C1 (amended): every successful presign request is answered with HTTP
200 and a JSON body whose fields are exactly `url` (string), `expires_in`
(integer seconds), `expires_at`, `operation`, `bucket` and `key`;
`expires_at` is the request clock plus the TTL rendered by the RFC 3339
formatter, whose output satisfies the RFC 3339 date-time grammar
throughout its year range — the integer TTL field is named `expires_in`,
not `ttl`. -/
theorem c1_presign_response_fields (resp : PresignedURL) :
    presignSuccessResponse resp =
      (200, [("url", .str resp.url),
             ("expires_in", .num resp.expiresIn),
             ("expires_at", .str resp.expiresAt),
             ("operation", .str resp.operation),
             ("bucket", .str resp.bucket),
             ("key", .str resp.key)])
    ∧ (presignedURLJSON resp).map Prod.fst =
        ["url", "expires_in", "expires_at", "operation", "bucket", "key"]
    ∧ ¬ ("ttl" ∈ (presignedURLJSON resp).map Prod.fst)
    ∧ (∀ (req : PresignRequest) (url : String) (now : Int) (resp' : PresignedURL),
        s3GeneratePresignedURL req url now = .ok resp' →
        resp'.expiresAt = rfc3339UTC (now + req.expiresInNanos / 1000000000))
    ∧ (∀ t : Int, 0 ≤ t → t < 253402300800 → isRFC3339 (rfc3339UTC t) = true) := by
  refine ⟨rfl, rfl, ?_, ?_, rfc3339UTC_wellFormed⟩
  · show ¬ ("ttl" ∈ ["url", "expires_in", "expires_at", "operation", "bucket", "key"])
    decide
  · intro req url now resp' h
    unfold s3GeneratePresignedURL at h
    split_ifs at h with hop
    cases h
    rfl

/-! ## Claim C2: presign TTL handling -/

/-- The presign operation the handler selects from the `operation` query
parameter (storage.go lines 242-246). -/
def presignOpOf (req : StorageHTTPRequest) : String :=
  if req.query "operation" ≠ "" then req.query "operation" else "GetObject"

/-- C2 counterexample: with the default access control, `ttl=0` is not
rejected with 400 — the handler dispatches a presign call with a zero
duration; likewise `ttl=-5` dispatches with a negative duration and an
oversized `ttl=999999999` is forwarded unclamped. -/
theorem c2_ttl_not_validated :
    storageHandle ["s3"] newDefaultAccessControl
        { path := "/-s3/prod/presign/rag-docs/file.txt",
          query := fun k => if k = "ttl" then "0" else "", contentType := "" } =
      .dispatch (.presignOp
        { bucket := "rag-docs", key := "file.txt", operation := "GetObject",
          expiresInNanos := 0, contentType := "" })
    ∧ storageHandle ["s3"] newDefaultAccessControl
        { path := "/-s3/prod/presign/rag-docs/file.txt",
          query := fun k => if k = "ttl" then "-5" else "", contentType := "" } =
      .dispatch (.presignOp
        { bucket := "rag-docs", key := "file.txt", operation := "GetObject",
          expiresInNanos := -5000000000, contentType := "" })
    ∧ storageHandle ["s3"] newDefaultAccessControl
        { path := "/-s3/prod/presign/rag-docs/file.txt",
          query := fun k => if k = "ttl" then "999999999" else "", contentType := "" } =
      .dispatch (.presignOp
        { bucket := "rag-docs", key := "file.txt", operation := "GetObject",
          expiresInNanos := 999999999000000000, contentType := "" }) := by
  refine ⟨?_, ?_, ?_⟩ <;> decide

/-- C2 (amended): on the presign path no maximum is applied to the `ttl`
query value — the parsed value becomes the nanosecond duration
`time.Duration(ttl) * time.Second` (wrapping around 64 bits when
`|ttl| > 9223372036` seconds) and is forwarded to the provider; zero and
negative values are not rejected; an absent `ttl` defaults to 3600
seconds; only a `ttl` that is non-numeric or outside the 64-bit integer
range draws HTTP 400. -/
theorem c2_ttl_passthrough (providers : List String) (ac : StorageAccessControl)
    (req : StorageHTTPRequest) (prov env bucket k : String)
    (hparse : strSplitN (strTrimPre req.path "/-") '/' 5 = [prov, env, "presign", bucket, k])
    (hprov : providers.contains prov = true)
    (hacc : checkAccess ac bucket k "presign" = true)
    (hkey : k ≠ "") :
    (req.query "ttl" = "" →
      storageHandle providers ac req = .dispatch (.presignOp
        { bucket := bucket, key := k, operation := presignOpOf req,
          expiresInNanos := 3600000000000, contentType := "" }))
    ∧ (∀ n : Int, goAtoi (req.query "ttl") = some n →
      storageHandle providers ac req = .dispatch (.presignOp
        { bucket := bucket, key := k, operation := presignOpOf req,
          expiresInNanos := int64Wrap (n * 1000000000), contentType := "" }))
    ∧ (req.query "ttl" ≠ "" → goAtoi (req.query "ttl") = none →
      storageHandle providers ac req = .error 400 "Invalid TTL value") := by
  have hjoin : strJoin [k] "/" = k := strJoin_singleton k "/"
  have hmain : storageHandle providers ac req = dispatchOp req "presign" bucket k := by
    rw [storageHandle_parsed providers ac req prov env "presign" bucket [k] hparse]
    rw [handleParsed_allowed providers ac req prov "presign" bucket [k] hprov
      (by rw [hjoin]; exact hacc)]
    rw [hjoin]
  have hdis : dispatchOp req "presign" bucket k =
      (match goAtoi (if req.query "ttl" = "" then "3600" else req.query "ttl") with
       | none => .error 400 "Invalid TTL value"
       | some ttlSeconds => .dispatch (.presignOp
          { bucket := bucket, key := k, operation := presignOpOf req,
            expiresInNanos := int64Wrap (ttlSeconds * 1000000000), contentType := "" })) := by
    unfold dispatchOp
    rw [if_neg (by decide : ¬ ("presign" = "get")),
        if_neg (by decide : ¬ ("presign" = "put")),
        if_neg (by decide : ¬ ("presign" = "delete")),
        if_neg (by decide : ¬ ("presign" = "list")),
        if_neg (by decide : ¬ ("presign" = "head")),
        if_pos rfl, if_neg hkey]
    rfl
  refine ⟨?_, ?_, ?_⟩
  · intro hempty
    rw [hmain, hdis, hempty]
    rfl
  · intro n hn
    by_cases hempty : req.query "ttl" = ""
    · rw [hempty] at hn
      exact Option.noConfusion ((rfl : goAtoi "" = none).symm.trans hn)
    · rw [hmain, hdis, if_neg hempty, hn]
  · intro hne hnone
    rw [hmain, hdis, if_neg hne, hnone]

/-- C2 witness: the amended theorem at concrete requests — a large
in-range `ttl` forwarded verbatim as nanoseconds, a `ttl` of 2^63
rejected with 400 by Atoi's range error, and a `ttl` past the duration
overflow bound forwarded with the wrapped 64-bit product. -/
theorem c2_ttl_passthrough_witness :
    storageHandle ["s3"] newDefaultAccessControl
        { path := "/-s3/prod/presign/rag-docs/q.md",
          query := fun key => if key = "ttl" then "999999999" else "",
          contentType := "" } =
      .dispatch (.presignOp
        { bucket := "rag-docs", key := "q.md", operation := "GetObject",
          expiresInNanos := 999999999000000000, contentType := "" })
    ∧ storageHandle ["s3"] newDefaultAccessControl
        { path := "/-s3/prod/presign/rag-docs/q.md",
          query := fun key => if key = "ttl" then "9223372036854775808" else "",
          contentType := "" } =
      .error 400 "Invalid TTL value"
    ∧ storageHandle ["s3"] newDefaultAccessControl
        { path := "/-s3/prod/presign/rag-docs/q.md",
          query := fun key => if key = "ttl" then "10000000000" else "",
          contentType := "" } =
      .dispatch (.presignOp
        { bucket := "rag-docs", key := "q.md", operation := "GetObject",
          expiresInNanos := int64Wrap (10000000000 * 1000000000),
          contentType := "" }) := by
  refine ⟨?_, ?_, ?_⟩
  · exact (c2_ttl_passthrough ["s3"] newDefaultAccessControl
      { path := "/-s3/prod/presign/rag-docs/q.md",
        query := fun key => if key = "ttl" then "999999999" else "",
        contentType := "" }
      "s3" "prod" "rag-docs" "q.md" (by decide) (by decide) (by decide)
      (by decide)).2.1 999999999 (by decide)
  · exact (c2_ttl_passthrough ["s3"] newDefaultAccessControl
      { path := "/-s3/prod/presign/rag-docs/q.md",
        query := fun key => if key = "ttl" then "9223372036854775808" else "",
        contentType := "" }
      "s3" "prod" "rag-docs" "q.md" (by decide) (by decide) (by decide)
      (by decide)).2.2 (by decide) (by decide)
  · exact (c2_ttl_passthrough ["s3"] newDefaultAccessControl
      { path := "/-s3/prod/presign/rag-docs/q.md",
        query := fun key => if key = "ttl" then "10000000000" else "",
        contentType := "" }
      "s3" "prod" "rag-docs" "q.md" (by decide) (by decide) (by decide)
      (by decide)).2.1 10000000000 (by decide)

/-! ## Claim C3: the storage access check -/

/-- C3 counterexample: `CheckAccess` has no operation allowlist.  The
made-up operation `frobnicate` is in no allowlist, yet with the default
access control the check allows it, and the handler answers 400 (unknown
operation), not the claimed 403 denial. -/
theorem c3_operation_never_denied :
    checkAccess newDefaultAccessControl "rag-docs" "doc.txt" "frobnicate" = true
    ∧ storageHandle ["s3"] newDefaultAccessControl
        { path := "/-s3/prod/frobnicate/rag-docs/doc.txt", query := emptyQuery,
          contentType := "" } =
      .error 400 "Unknown storage operation: frobnicate"
    ∧ storageHandle ["s3"] newDefaultAccessControl
        { path := "/-s3/prod/frobnicate/rag-docs/doc.txt", query := emptyQuery,
          contentType := "" } ≠
      .error 403 "Access denied" := by
  refine ⟨?_, ?_, ?_⟩ <;> decide

/-- C3 (amended): the pre-dispatch access check denies — producing 403 and
no storage-provider call — exactly when the bucket misses a non-empty
`allowedBuckets` list (empty allowlist = all buckets allowed) or the key
matches a denied prefix (tested against both the key and the
slash-prefixed key); the operation is never consulted. -/
theorem c3_access_check_characterisation (ac : StorageAccessControl)
    (bucket key op op' : String) :
    checkAccess ac bucket key op = checkAccess ac bucket key op'
    ∧ (checkAccess ac bucket key op = false ↔
        (ac.allowedBuckets ≠ [] ∧ ¬ bucket ∈ ac.allowedBuckets) ∨
        ∃ denied ∈ ac.deniedPrefixes,
          strStartsWith ("/" ++ key) denied = true ∨ strStartsWith key denied = true)
    ∧ (∀ (providers : List String) (req : StorageHTTPRequest) (prov env : String)
        (rest : List String),
        strSplitN (strTrimPre req.path "/-") '/' 5 = prov :: env :: op :: bucket :: rest →
        providers.contains prov = true →
        checkAccess ac bucket (strJoin rest "/") op = false →
        storageHandle providers ac req = .error 403 "Access denied" ∧
          ∀ d, storageHandle providers ac req ≠ .dispatch d) := by
  refine ⟨rfl, ?_, ?_⟩
  · unfold checkAccess
    by_cases h1 : (0 < ac.allowedBuckets.length && !(ac.allowedBuckets.contains bucket)) = true
    · rw [if_pos h1]
      simp only [true_iff]
      left
      rw [Bool.and_eq_true] at h1
      rcases h1 with ⟨hlen, hmem⟩
      refine ⟨?_, ?_⟩
      · exact List.ne_nil_of_length_pos (by exact_mod_cast of_decide_eq_true hlen)
      · intro hmem'
        rw [Bool.not_eq_true'] at hmem
        exact absurd (List.elem_eq_true_of_mem hmem') (by simpa [List.contains] using hmem)
    · rw [if_neg h1]
      by_cases h2 : (ac.deniedPrefixes.any
          (fun denied => strStartsWith ("/" ++ key) denied || strStartsWith key denied)) = true
      · rw [if_pos h2]
        simp only [true_iff]
        right
        rcases List.any_eq_true.mp h2 with ⟨denied, hdmem, hd⟩
        rw [Bool.or_eq_true] at hd
        exact ⟨denied, hdmem, hd⟩
      · rw [if_neg h2]
        simp only [Bool.true_eq_false, false_iff]
        rintro (⟨hne, hnotmem⟩ | ⟨denied, hdmem, hd⟩)
        · refine h1 ((Bool.and_eq_true _ _).mpr
            ⟨decide_eq_true (by exact_mod_cast List.length_pos.mpr hne), ?_⟩)
          cases hc : ac.allowedBuckets.contains bucket
          · rfl
          · exact absurd (List.mem_of_elem_eq_true (by simpa [List.contains] using hc))
              hnotmem
        · exact h2 (List.any_eq_true.mpr ⟨denied, hdmem, (Bool.or_eq_true _ _).mpr hd⟩)
  · intro providers req prov env rest hpp hprov hdeny
    have h403 : storageHandle providers ac req = .error 403 "Access denied" := by
      rw [storageHandle_parsed providers ac req prov env op bucket rest hpp]
      exact handleParsed_denied providers ac req prov op bucket rest hprov hdeny
    exact ⟨h403, fun d hd => by rw [h403] at hd; exact HandlerResult.noConfusion hd⟩

/-! ## Claim C6: missing object key -/

/-- C6: a storage path that parses to exactly four components carries no
object key; `list` proceeds to the provider while `get`, `put`, `delete`,
`head` and `presign` are each rejected with HTTP 400. -/
theorem c6_missing_key (providers : List String) (ac : StorageAccessControl)
    (req : StorageHTTPRequest) (prov env op bucket : String)
    (hparse : strSplitN (strTrimPre req.path "/-") '/' 5 = [prov, env, op, bucket])
    (hprov : providers.contains prov = true)
    (hacc : checkAccess ac bucket "" op = true) :
    (op = "list" → storageHandle providers ac req =
      .dispatch (.listOp bucket (req.query "prefix") (req.query "delimiter")
        (listMaxKeys (req.query "max_keys")) (req.query "continuation_token")))
    ∧ (op = "get" → storageHandle providers ac req =
        .error 400 "Object key is required for get operation")
    ∧ (op = "put" → storageHandle providers ac req =
        .error 400 "Object key is required for put operation")
    ∧ (op = "delete" → storageHandle providers ac req =
        .error 400 "Object key is required for delete operation")
    ∧ (op = "head" → storageHandle providers ac req =
        .error 400 "Object key is required for head operation")
    ∧ (op = "presign" → storageHandle providers ac req =
        .error 400 "Object key is required for presign operation") := by
  have hmain : storageHandle providers ac req = dispatchOp req op bucket "" := by
    rw [storageHandle_parsed providers ac req prov env op bucket [] hparse]
    exact handleParsed_allowed providers ac req prov op bucket [] hprov hacc
  refine ⟨?_, ?_, ?_, ?_, ?_, ?_⟩ <;> intro hop <;> subst hop <;> rw [hmain] <;> rfl

/-- C6 witness: concrete four-component paths — `list` dispatches to the
provider, `get` is answered 400. -/
theorem c6_missing_key_witness :
    storageHandle ["s3"] newDefaultAccessControl
        { path := "/-s3/prod/list/rag-docs", query := emptyQuery, contentType := "" } =
      .dispatch (.listOp "rag-docs" "" "" 1000 "")
    ∧ storageHandle ["s3"] newDefaultAccessControl
        { path := "/-s3/prod/get/rag-docs", query := emptyQuery, contentType := "" } =
      .error 400 "Object key is required for get operation" := by
  constructor
  · exact (c6_missing_key ["s3"] newDefaultAccessControl
      { path := "/-s3/prod/list/rag-docs", query := emptyQuery, contentType := "" }
      "s3" "prod" "list" "rag-docs" (by decide) (by decide) (by decide)).1 rfl
  · exact (c6_missing_key ["s3"] newDefaultAccessControl
      { path := "/-s3/prod/get/rag-docs", query := emptyQuery, contentType := "" }
      "s3" "prod" "get" "rag-docs" (by decide) (by decide) (by decide)).2.1 rfl

/-! ## Claim C9: default denied prefixes -/

/-- Lifted prefix test: a prefix of the key is the matching slash-prefixed
denied entry of the key with a slash prepended. -/
theorem strStartsWith_slash_lift (key pre : String)
    (h : strStartsWith key pre = true) :
    strStartsWith ("/" ++ key) ("/" ++ pre) = true := by
  unfold strStartsWith at *
  rw [toList_slash_append, toList_slash_append]
  simpa [List.isPrefixOf] using h

/-- C9: with the default-constructed access control, any storage request
whose key starts with `secret/` or `private/`, or whose first path
segment starts with a dot, fails the access check and — whatever the
operation — is answered 403 before any provider call. -/
theorem c9_default_denied_prefixes (bucket key op : String)
    (providers : List String) (req : StorageHTTPRequest) (prov env : String)
    (hkey : strStartsWith key "secret/" = true ∨ strStartsWith key "private/" = true ∨
      strStartsWith key "." = true) :
    checkAccess newDefaultAccessControl bucket key op = false
    ∧ (strSplitN (strTrimPre req.path "/-") '/' 5 = [prov, env, op, bucket, key] →
       providers.contains prov = true →
       storageHandle providers newDefaultAccessControl req = .error 403 "Access denied") := by
  have hany : (newDefaultAccessControl.deniedPrefixes.any
      (fun denied => strStartsWith ("/" ++ key) denied ||
        strStartsWith key denied)) = true := by
    apply List.any_eq_true.mpr
    rcases hkey with h | h | h
    · refine ⟨"/secret/", by decide, ?_⟩
      rw [Bool.or_eq_true]
      left
      have := strStartsWith_slash_lift key "secret/" h
      simpa using this
    · refine ⟨"/private/", by decide, ?_⟩
      rw [Bool.or_eq_true]
      left
      have := strStartsWith_slash_lift key "private/" h
      simpa using this
    · refine ⟨"/.", by decide, ?_⟩
      rw [Bool.or_eq_true]
      left
      have := strStartsWith_slash_lift key "." h
      simpa using this
  have hdeny : checkAccess newDefaultAccessControl bucket key op = false := by
    unfold checkAccess
    rw [if_neg (by simp [newDefaultAccessControl]), if_pos hany]
  refine ⟨hdeny, fun hpp hprov => ?_⟩
  rw [storageHandle_parsed providers newDefaultAccessControl req prov env op bucket
    [key] hpp]
  exact handleParsed_denied providers newDefaultAccessControl req prov op bucket [key]
    hprov (by rw [strJoin_singleton]; exact hdeny)

/-- C9 witness: spec scenario 5's request, `get` on key
`secret/creds.json`, and a dotted first segment under `presign`. -/
theorem c9_default_denied_prefixes_witness :
    checkAccess newDefaultAccessControl "rag-docs" "secret/creds.json" "get" = false
    ∧ storageHandle ["s3"] newDefaultAccessControl
        { path := "/-s3/prod/get/rag-docs/secret/creds.json", query := emptyQuery,
          contentType := "" } =
      .error 403 "Access denied"
    ∧ storageHandle ["s3"] newDefaultAccessControl
        { path := "/-s3/prod/presign/rag-docs/.hidden/x", query := emptyQuery,
          contentType := "" } =
      .error 403 "Access denied" := by
  refine ⟨?_, ?_, ?_⟩
  · exact (c9_default_denied_prefixes "rag-docs" "secret/creds.json" "get" ["s3"]
      { path := "/-s3/prod/get/rag-docs/secret/creds.json", query := emptyQuery,
        contentType := "" } "s3" "prod" (Or.inl (by decide))).1
  · exact (c9_default_denied_prefixes "rag-docs" "secret/creds.json" "get" ["s3"]
      { path := "/-s3/prod/get/rag-docs/secret/creds.json", query := emptyQuery,
        contentType := "" } "s3" "prod" (Or.inl (by decide))).2 (by decide) (by decide)
  · exact (c9_default_denied_prefixes "rag-docs" ".hidden/x" "presign" ["s3"]
      { path := "/-s3/prod/presign/rag-docs/.hidden/x", query := emptyQuery,
        contentType := "" } "s3" "prod" (Or.inr (Or.inr (by decide)))).2
      (by decide) (by decide)

/-! ## Claim C4: max_tokens mapping and the 4096 default -/

/-- An OpenAI request with `max_tokens` absent (Go zero value). -/
def reqMaxTokensAbsent : ChatCompletionRequest :=
  { model := "claude-3-sonnet"
    messages := [{ role := "user", content := .str "hi", toolCalls := [] }]
    maxTokens := 0, temperature := 0, topP := 0, stop := [], stream := false
    tools := [], functions := [], toolChoice := none }

/-- C4 counterexample: translating a request without `max_tokens` to the
Converse API leaves `inferenceConfig.maxTokens` unset — no 4096 default
is applied on this path. -/
theorem c4_no_default_on_converse :
    (translateOpenAIToConverseAPI reqMaxTokensAbsent).toOption.map
      (fun tr => tr.inferenceConfig.maxTokens) = some none := by
  rfl

/-- C4 (amended): on the Converse path a positive `max_tokens` maps to
`inferenceConfig.maxTokens` and an absent (zero or negative) one is
omitted rather than defaulted; the 4096 default for an absent
`max_tokens` is applied only by the legacy invoke-API translator
`TranslateOpenAIToBedrock`. -/
theorem c4_maxTokens_mapping (req : ChatCompletionRequest) (tr : ConverseTranslation)
    (h : translateOpenAIToConverseAPI req = .ok tr) :
    (0 < req.maxTokens → tr.inferenceConfig.maxTokens = some req.maxTokens)
    ∧ (req.maxTokens ≤ 0 → tr.inferenceConfig.maxTokens = none)
    ∧ (∀ (req' : ChatCompletionRequest) (tr' : BedrockTranslation),
        translateOpenAIToBedrock req' = .ok tr' →
        tr'.request.maxTokens = if req'.maxTokens = 0 then 4096 else req'.maxTokens) := by
  have hcfg : tr.inferenceConfig.maxTokens =
      (if 0 < req.maxTokens then some req.maxTokens else none) := by
    unfold translateOpenAIToConverseAPI at h
    cases hm : getBedrockModelID req.model with
    | none => rw [hm] at h; exact Except.noConfusion h
    | some mid =>
      rw [hm] at h
      cases h
      rfl
  refine ⟨fun hpos => ?_, fun hle => ?_, fun req' tr' h' => ?_⟩
  · rw [hcfg, if_pos hpos]
  · rw [hcfg, if_neg (not_lt.mpr hle)]
  · unfold translateOpenAIToBedrock at h'
    cases hm : getBedrockModelID req'.model with
    | none => rw [hm] at h'; exact Except.noConfusion h'
    | some mid =>
      rw [hm] at h'
      cases h'
      rfl

/-- The Converse translation of a request with `max_tokens` 50, spelled
out. -/
def reqMaxTokens50 : ChatCompletionRequest :=
  { reqMaxTokensAbsent with maxTokens := 50 }

def trMaxTokens50 : ConverseTranslation :=
  { modelID := "anthropic.claude-3-sonnet-20240229-v1:0"
    messages := [{ role := "user", content := [ContentBlock.mkText "hi"] }]
    system := []
    inferenceConfig :=
      { maxTokens := some 50, temperature := none, topP := none, stopSequences := [] }
    toolConfig := none
    method := "POST"
    path := "/model/anthropic.claude-3-sonnet-20240229-v1:0/converse" }

/-- C4 witness: the amended theorem at the concrete request with
`max_tokens` 50 (mapped through) and at one with `max_tokens` absent
(4096 applied only by the legacy translator). -/
theorem c4_maxTokens_mapping_witness :
    0 < reqMaxTokens50.maxTokens
    ∧ trMaxTokens50.inferenceConfig.maxTokens = some 50 := by
  refine ⟨by decide, ?_⟩
  exact (c4_maxTokens_mapping reqMaxTokens50 trMaxTokens50 rfl).1 (by decide)

/-! ## Claim C5: pattern routing -/

/-- C5: with no exact mapping entry for these names,
`GetProviderForModel` pattern-routes `claude-3-sonnet` to bedrock,
`claude-3-sonnet-20240229-anthropic` to anthropic,
`cohere.command-r-plus` to oracle, `cohere.command-text` to bedrock and
`gpt-4-azure-deployment` to azure. -/
theorem c5_pattern_routing (modelMap : List (String × String))
    (h1 : goMapLookup modelMap "claude-3-sonnet" = none)
    (h2 : goMapLookup modelMap "claude-3-sonnet-20240229-anthropic" = none)
    (h3 : goMapLookup modelMap "cohere.command-r-plus" = none)
    (h4 : goMapLookup modelMap "cohere.command-text" = none)
    (h5 : goMapLookup modelMap "gpt-4-azure-deployment" = none) :
    getProviderForModelName ⟨modelMap⟩ "claude-3-sonnet" = "bedrock"
    ∧ getProviderForModelName ⟨modelMap⟩ "claude-3-sonnet-20240229-anthropic" = "anthropic"
    ∧ getProviderForModelName ⟨modelMap⟩ "cohere.command-r-plus" = "oracle"
    ∧ getProviderForModelName ⟨modelMap⟩ "cohere.command-text" = "bedrock"
    ∧ getProviderForModelName ⟨modelMap⟩ "gpt-4-azure-deployment" = "azure" := by
  unfold getProviderForModelName
  rw [h1, h2, h3, h4, h5]
  exact ⟨by decide, by decide, by decide, by decide, by decide⟩

/-- C5 witness: the router with an empty exact map. -/
theorem c5_pattern_routing_witness :
    getProviderForModelName ⟨[]⟩ "claude-3-sonnet" = "bedrock"
    ∧ getProviderForModelName ⟨[]⟩ "claude-3-sonnet-20240229-anthropic" = "anthropic"
    ∧ getProviderForModelName ⟨[]⟩ "cohere.command-r-plus" = "oracle"
    ∧ getProviderForModelName ⟨[]⟩ "cohere.command-text" = "bedrock"
    ∧ getProviderForModelName ⟨[]⟩ "gpt-4-azure-deployment" = "azure" :=
  c5_pattern_routing [] rfl rfl rfl rfl rfl

/-! ## Claim C7: text preservation and toolUse round-trip -/

/-- The in-order concatenation of the text fields of a block list. -/
def converseTextConcat : List ContentBlock → String
  | [] => ""
  | block :: rest =>
    (match block.text with | some t => t | none => "") ++ converseTextConcat rest

/-- The tool calls a block list yields: one per `toolUse` block, in
order, carrying its `toolUseId`, name and input. -/
def converseToolCallsOf (blocks : List ContentBlock) : List ToolCall :=
  (blocks.filterMap (fun b => b.toolUse)).map
    (fun tu => ToolCall.mk tu.toolUseId "function" ⟨tu.name, tu.input⟩)

theorem collectConverseBlocks_eq (blocks : List ContentBlock) :
    collectConverseBlocks blocks = (converseTextConcat blocks, converseToolCallsOf blocks) := by
  induction blocks with
  | nil => rfl
  | cons block rest ih =>
    unfold collectConverseBlocks converseTextConcat
    rw [ih]
    cases hbu : block.toolUse <;>
      simp [converseToolCallsOf, List.filterMap_cons, hbu]

/-- C7: string message content translates to a single identical text
block (request direction, both for ordinary and for system messages),
and a Converse response's text blocks concatenate into the choice's
content while each `toolUse` block becomes a `tool_calls` entry whose id
is the block's `toolUseId` and whose function name is the block's name,
unchanged and in order. -/
theorem c7_text_and_toolcalls (s : String) (resp : ConverseResponse)
    (msg : ConverseMessage) (openaiModel requestID : String)
    (h : resp.output = some msg) :
    convertToContentBlocks (.str s) = [ContentBlock.mkText s]
    ∧ extractTextContent (.str s) = s
    ∧ ∃ choice, (translateConverseToOpenAI resp openaiModel requestID).choices = [choice]
        ∧ choice.message.role = "assistant"
        ∧ choice.message.toolCalls.map (fun tc => (tc.id, tc.function.name)) =
            (msg.content.filterMap (fun b => b.toolUse)).map
              (fun tu => (tu.toolUseId, tu.name))
        ∧ choice.message.content =
            (if converseTextConcat msg.content ≠ "" then .str (converseTextConcat msg.content)
             else .null) := by
  refine ⟨rfl, rfl, ?_⟩
  unfold translateConverseToOpenAI
  rw [h]
  simp only [collectConverseBlocks_eq]
  refine ⟨_, rfl, rfl, ?_, rfl⟩
  unfold converseToolCallsOf
  rw [List.map_map]
  rfl

/-- A Converse response carrying one text block and one toolUse block. -/
def converseRespC7 : ConverseResponse :=
  { output := some
      { role := "assistant"
        content := [ContentBlock.mkText "hello",
          { text := none, image := none,
            toolUse := some { toolUseId := "tooluse-abc123", name := "get_weather",
                              input := .obj [("city", .str "Oslo")] } }] }
    stopReason := "tool_use"
    usage := { inputTokens := 5, outputTokens := 1, totalTokens := 6 } }

/-- C7 witness: the round-trip theorem at a concrete response — the text
`hello` survives and the toolUse id/name come through unchanged. -/
theorem c7_text_and_toolcalls_witness :
    ∃ choice,
      (translateConverseToOpenAI converseRespC7 "claude-3-sonnet" "chatcmpl-1").choices =
        [choice]
      ∧ choice.message.role = "assistant"
      ∧ choice.message.toolCalls.map (fun tc => (tc.id, tc.function.name)) =
          [("tooluse-abc123", "get_weather")]
      ∧ choice.message.content = .str "hello" := by
  obtain ⟨choice, hch, hrole, htc, hcontent⟩ :=
    (c7_text_and_toolcalls "hello" converseRespC7
      { role := "assistant"
        content := [ContentBlock.mkText "hello",
          { text := none, image := none,
            toolUse := some { toolUseId := "tooluse-abc123", name := "get_weather",
                              input := .obj [("city", .str "Oslo")] } }] }
      "claude-3-sonnet" "chatcmpl-1" rfl).2.2
  exact ⟨choice, hch, hrole, htc, hcontent⟩

/-! ## Claim C10: GetBedrockModelID's dead pass-through branch -/

theorem stringMk_take_one_ne (l : List Char) (t : String)
    (ht : 1 < t.toList.length) : String.mk (l.take 1) ≠ t := by
  intro h
  have hlen : (l.take 1).length = t.toList.length :=
    congrArg (fun s : String => s.toList.length) h
  have hle : (l.take 1).length ≤ 1 := by
    simp [List.length_take]
  omega

/-- C10: the pass-through branch of `GetBedrockModelID` compares the
one-character slice `name[0:1]` against multi-character prefixes and
never fires, so the function reduces to the map lookup; in particular
the full native ID `anthropic.claude-3-sonnet-20240229-v1:0` is not
recognised, and both Bedrock translators fail for every model name
outside `BedrockModelIDMap`. -/
theorem c10_passthrough_dead (name : String) (req : ChatCompletionRequest)
    (h : goMapLookup bedrockModelIDMap req.model = none) :
    getBedrockModelID name = goMapLookup bedrockModelIDMap name
    ∧ getBedrockModelID "anthropic.claude-3-sonnet-20240229-v1:0" = none
    ∧ translateOpenAIToConverseAPI req = .error (bedrockNotSupportedMsg req.model)
    ∧ translateOpenAIToBedrock req = .error (bedrockNotSupportedMsg req.model) := by
  have hdead : ∀ m : String, getBedrockModelID m = goMapLookup bedrockModelIDMap m := by
    intro m
    unfold getBedrockModelID
    rw [if_neg]
    rintro ⟨-, h1 | h2 | h3 | h4⟩
    · exact stringMk_take_one_ne _ "anthropic." (by decide) h1
    · exact stringMk_take_one_ne _ "amazon." (by decide) h2
    · exact stringMk_take_one_ne _ "meta." (by decide) h3
    · exact stringMk_take_one_ne _ "mistral." (by decide) h4
  refine ⟨hdead name, by decide, ?_, ?_⟩
  · unfold translateOpenAIToConverseAPI
    rw [hdead req.model, h]
  · unfold translateOpenAIToBedrock
    rw [hdead req.model, h]

/-- A request naming the full native Bedrock model ID. -/
def reqNativeBedrockID : ChatCompletionRequest :=
  { reqMaxTokensAbsent with model := "anthropic.claude-3-sonnet-20240229-v1:0" }

/-- C10 witness: the theorem at the native Bedrock model ID — both
translators reject it. -/
theorem c10_passthrough_dead_witness :
    getBedrockModelID "anthropic.claude-3-sonnet-20240229-v1:0" = none
    ∧ translateOpenAIToConverseAPI reqNativeBedrockID =
        .error (bedrockNotSupportedMsg "anthropic.claude-3-sonnet-20240229-v1:0")
    ∧ translateOpenAIToBedrock reqNativeBedrockID =
        .error (bedrockNotSupportedMsg "anthropic.claude-3-sonnet-20240229-v1:0") := by
  obtain ⟨-, h2, h3, h4⟩ :=
    c10_passthrough_dead "anthropic.claude-3-sonnet-20240229-v1:0" reqNativeBedrockID
      (by decide)
  exact ⟨h2, h3, h4⟩

/-! ## Claim C8: fallback order, exclusion and attempt cap -/

/-- Whether `getProviderForModel` succeeds for this provider. -/
def routeOk (r : Router) (modelName providerName : String) : Bool :=
  match routerGetProviderForModel r modelName providerName with
  | .ok _ => true
  | .error _ => false

theorem tryFallbackAux_eq (r : Router) (modelName excludeProvider : String)
    (maxAttempts : Int) (l : List String) (attempts : Int) :
    tryFallbackAux r modelName excludeProvider maxAttempts l attempts =
      (match ((l.filter (fun p => p != excludeProvider)).take
          (maxAttempts - attempts).toNat).find? (fun p => routeOk r modelName p) with
       | some p => routerGetProviderForModel r modelName p
       | none => .error (fallbackExhaustedMsg modelName)) := by
  induction l generalizing attempts with
  | nil => simp [tryFallbackAux]
  | cons providerName rest ih =>
    unfold tryFallbackAux
    by_cases hex : providerName = excludeProvider
    · rw [if_pos hex, ih]
      have : (providerName != excludeProvider) = false := by
        simp [bne, hex]
      simp [List.filter_cons, this]
    · rw [if_neg hex]
      have hkeep : (providerName != excludeProvider) = true := by
        simp [bne, hex]
      by_cases hcap : maxAttempts ≤ attempts
      · rw [if_pos hcap]
        have hzero : (maxAttempts - attempts).toNat = 0 := by omega
        simp [List.filter_cons, hkeep, hzero]
      · rw [if_neg hcap]
        have hsucc : (maxAttempts - attempts).toNat =
            (maxAttempts - (attempts + 1)).toNat + 1 := by omega
        rw [show ((providerName :: rest).filter (fun p => p != excludeProvider)) =
            providerName :: rest.filter (fun p => p != excludeProvider) by
          simp [List.filter_cons, hkeep]]
        rw [hsucc, List.take_succ_cons, List.find?]
        cases hres : routerGetProviderForModel r modelName providerName with
        | ok res =>
          have hok : routeOk r modelName providerName = true := by
            unfold routeOk
            rw [hres]
          simp [hok, hres]
        | error e =>
          have hok : routeOk r modelName providerName = false := by
            unfold routeOk
            rw [hres]
          simp [hok, hres, ih]

/-- C8: with fallback enabled and the default provider failing, the
router resolves to the first succeeding provider among the first
`maxAttempts` entries of the fallback list taken in declared order with
the failed default skipped, and errors exactly when none of those
succeeds. -/
theorem c8_fallback_order (r : Router) (modelName e : String)
    (hauto : r.config.autoFallback = true)
    (hen : r.config.fallbackEnabled = true)
    (hdp : r.config.defaultProvider modelName ≠ "")
    (hfail : routerGetProviderForModel r modelName
      (r.config.defaultProvider modelName) = .error e) :
    routeRequest r modelName "" =
      (match ((r.config.fallbackProviders.filter
            (fun p => p != r.config.defaultProvider modelName)).take
          r.config.maxAttempts.toNat).find? (fun p => routeOk r modelName p) with
       | some p => routerGetProviderForModel r modelName p
       | none => .error (fallbackExhaustedMsg modelName)) := by
  unfold routeRequest
  rw [if_neg (by simp)]
  rw [if_neg hdp, hfail]
  rw [hauto, hen]
  simp only [Bool.not_true, Bool.false_or, Bool.or_self, if_neg]
  unfold tryFallbackProviders
  rw [tryFallbackAux_eq]
  simp

/-- The concrete fallback setup of spec scenario 4 extended with a third
entry: default `openai_primary` fails (no model info), the list contains
the default itself (skipped), a disabled provider (counted but failing)
and `azure_backup`, which the router picks. -/
def routerC8 : Router :=
  { config :=
      { providerEnabled := fun p => p != "disabled_one"
        providerModelInfo := fun m p =>
          if m = "gpt-4" ∧ p = "azure_backup" then some ⟨"gpt-4"⟩ else none
        defaultProvider := fun m => if m = "gpt-4" then "openai_primary" else ""
        fallbackProviders := ["openai_primary", "disabled_one", "azure_backup"]
        fallbackEnabled := true
        maxAttempts := 3
        autoFallback := true }
    registered := fun p =>
      p == "openai_primary" || p == "disabled_one" || p == "azure_backup" }

/-- C8 witness: the theorem at the concrete router — the default is
skipped, the disabled fallback is passed over, and `azure_backup` wins. -/
theorem c8_fallback_order_witness :
    routeRequest routerC8 "gpt-4" "" = .ok ("azure_backup", ⟨"gpt-4"⟩) := by
  have h := c8_fallback_order routerC8 "gpt-4"
    "model \"gpt-4\" not available on provider \"openai_primary\""
    rfl rfl (by decide) rfl
  rw [h]
  rfl

end LlmProxy
